import Mathlib

/-!
Shallow embedding of the blockchain-interaction layer of the
whitelist-backend repository (Go), together with theorems settling the
spec claims about it.

The embedded code lives in `internal/services` (file `blockchain.go`,
provided as `src/unnamed/part_002`) and `internal/handlers/handlers.go`.
Machine integers and `*big.Int` values are modelled as `Nat` (all the
quantities involved are uint256 / non-negative). Ethereum addresses are
modelled as `Nat` below `2 ^ 160`, with `0` playing the role of the Go
zero value `common.Address{}`. Go byte strings are modelled as
`List Nat` of their bytes. Fallible Go calls that return `(T, error)`
are modelled with `Except String T` (the `String` being the formatted
error message), or with an explicit `(Option T × Option String)` pair
where the Go code returns both a value and an error at once. A Go
runtime panic (out-of-range index or slice) is a distinct outcome,
modelled by `GoResult.panic`.

Network effects (the ethclient) are modelled by an explicit environment
`ChainEnv` holding the outcome of each RPC primitive the code invokes,
and each state-changing operation additionally returns the trace of
chain-interaction steps (`TxStep`) it performed, so that "submits a
transaction", "waits for inclusion" and "never attempts a call" become
statements about the trace.
-/

namespace WhitelistBackend

/-! ### Hex address conversion (go-ethereum `common.HexToAddress`)

`AddToWhitelist` / `RemoveFromWhitelist` convert each caller-supplied
hex string with `common.HexToAddress`, i.e. `BytesToAddress(FromHex(s))`.
The strings are byte lists here. -/

/-! ### The transaction path -/

/-! ### Purchase-event decoding and the watch loop -/

/-! ### Boundary address validation (handlers.go) -/

/-- Outcome of running a piece of Go code that may panic (index or
slice out of range). `ok` carries the normal return value. -/
inductive GoResult (α : Type) where
  | ok (val : α)
  | panic (msg : String)
deriving Repr, DecidableEq

/-- Big-endian interpretation of a byte list, as done by
`new(big.Int).SetBytes`. Each entry is taken mod 256 (bytes). -/
def bytesToNat (bs : List Nat) : Nat :=
  bs.foldl (fun acc b => acc * 256 + b % 256) 0

/-- `common.BytesToAddress`: keeps the last 20 bytes of the input,
i.e. the big-endian value modulo `256 ^ 20`. -/
def bytesToAddress (bs : List Nat) : Nat :=
  bytesToNat bs % 256 ^ 20

/-- The configured service state of `BlockchainService` that the
embedded operations read: the two contract addresses (`0` = unset, the
Go zero value) and the optional signing key. The ethclient itself is
modelled separately by `ChainEnv`. -/
structure BlockchainService where
  contractAddress : Nat
  tokenAddress : Nat
  privateKey : Option Nat
deriving Repr, DecidableEq

/-- The decoded results of the four constituent contract reads that
`GetSaleInfo` performs, each fallible. `saleConfig` carries the
seven-field tuple (tokenPrice, minPurchase, maxPurchase, maxSupply,
startTime, endTime, whitelistRequired) the sale ABI declares. -/
structure SaleReads where
  saleConfig : Except String (Nat × Nat × Nat × Nat × Nat × Nat × Bool)
  totalSold : Except String Nat
  totalEthRaised : Except String Nat
  isSaleActive : Except String Bool

/-- The `SaleInfo` struct assembled by `GetSaleInfo`. -/
structure SaleInfo where
  tokenPrice : Nat
  minPurchase : Nat
  maxPurchase : Nat
  maxSupply : Nat
  startTime : Nat
  endTime : Nat
  whitelistRequired : Bool
  totalSold : Nat
  totalEthRaised : Nat
  isActive : Bool
deriving Repr, DecidableEq

/-- `BlockchainService.GetSaleInfo`: fails fast when the sale contract
address is unset, then performs the four reads in order, propagating
the first failure with its wrapping message, and only assembles a
`SaleInfo` when all four succeeded. -/
def GetSaleInfo (bs : BlockchainService) (reads : SaleReads) :
    Except String SaleInfo :=
  if bs.contractAddress = 0 then
    Except.error "contract address not set"
  else
    match reads.saleConfig with
    | Except.error _ => Except.error "failed to get sale config"
    | Except.ok saleConfig =>
      match reads.totalSold with
      | Except.error _ => Except.error "failed to get total sold"
      | Except.ok totalSold =>
        match reads.totalEthRaised with
        | Except.error _ => Except.error "failed to get total ETH raised"
        | Except.ok totalEthRaised =>
          match reads.isSaleActive with
          | Except.error _ => Except.error "failed to get sale active status"
          | Except.ok isSaleActive =>
            Except.ok
              { tokenPrice := saleConfig.1
                minPurchase := saleConfig.2.1
                maxPurchase := saleConfig.2.2.1
                maxSupply := saleConfig.2.2.2.1
                startTime := saleConfig.2.2.2.2.1
                endTime := saleConfig.2.2.2.2.2.1
                whitelistRequired := saleConfig.2.2.2.2.2.2
                totalSold := totalSold
                totalEthRaised := totalEthRaised
                isActive := isSaleActive }

/-- `Except.isOk` as a Bool, for stating all-or-nothing properties. -/
def exceptIsOk {ε α : Type} : Except ε α → Bool
  | Except.ok _ => true
  | Except.error _ => false

/-- Value of a hex-digit byte, if it is one. -/
def hexVal (b : Nat) : Option Nat :=
  if 48 ≤ b ∧ b ≤ 57 then some (b - 48)
  else if 97 ≤ b ∧ b ≤ 102 then some (b - 97 + 10)
  else if 65 ≤ b ∧ b ≤ 70 then some (b - 65 + 10)
  else none

/-- `hex.DecodeString` as used by `common.Hex2Bytes`: decodes byte
pairs left to right, stopping at the first invalid pair or odd tail
(the bytes decoded so far are returned, the error is dropped). -/
def hexPairs : List Nat → List Nat
  | a :: b :: rest =>
    match hexVal a, hexVal b with
    | some x, some y => (x * 16 + y) :: hexPairs rest
    | _, _ => []
  | _ => []

/-- `common.FromHex`: strips a `0x`/`0X` prefix, left-pads an odd-length
string with one `0`, then hex-decodes. -/
def fromHex (s : List Nat) : List Nat :=
  let t := if s.take 2 = [48, 120] ∨ s.take 2 = [48, 88] then s.drop 2 else s
  hexPairs (if t.length % 2 = 1 then 48 :: t else t)

/-- `common.HexToAddress`. -/
def hexToAddress (s : List Nat) : Nat :=
  bytesToAddress (fromHex s)

/-- A transaction returned by `contract.Transact`. Only the hash is
observable to the claims. -/
structure Tx where
  hash : Nat
deriving Repr, DecidableEq

/-- A mined-transaction receipt (`types.Receipt`): `status = 0` means
the transaction reverted. -/
structure Receipt where
  status : Nat
  blockNumber : Nat
deriving Repr, DecidableEq

/-- An argument value passed to `contract.Transact`. -/
inductive Val where
  | addr (a : Nat)
  | addrList (l : List Nat)
  | boolean (b : Bool)
deriving Repr, DecidableEq

/-- One observable chain interaction performed on the ethclient during
a state-changing operation. `transact` records the target contract
address, the method name and the arguments submitted. -/
inductive TxStep where
  | getChainID
  | suggestGasPrice
  | transact (target : Nat) (method : String) (args : List Val)
  | waitMined
deriving Repr, DecidableEq

/-- Outcomes of the ethclient RPC primitives invoked along the
transaction path, fixed per execution. `newTransactor` models
`bind.NewKeyedTransactorWithChainID`. -/
structure ChainEnv where
  networkID : Except String Nat
  newTransactor : Except String Unit
  suggestGasPrice : Except String Nat
  transactResult : Except String Tx
  waitMinedResult : Except String Receipt

/-- The Go return convention `(*types.Transaction, error)` plus the
trace of chain steps that were performed. -/
structure TxOutcome where
  tx : Option Tx
  err : Option String
  steps : List TxStep
deriving Repr, DecidableEq

/-- Methods of the token ABI (`WhitelistTokenABI`), in declaration
order, used by `executeTokenTransaction`'s method-existence check. -/
def tokenABIMethods : List String :=
  ["balanceOf", "whitelist", "updateWhitelist", "updateWhitelistBatch"]

/-- `BlockchainService.executeTransaction`: resolves the chain id,
creates the transactor, sets the suggested gas price, and submits the
transaction against the SALE contract address. It returns the
transaction as soon as `Transact` succeeds: it does not wait for the
transaction to be mined and never inspects a receipt. -/
def executeTransaction (bs : BlockchainService) (env : ChainEnv)
    (method : String) (params : List Val) : TxOutcome :=
  match env.networkID with
  | Except.error _ =>
    { tx := none, err := some "failed to get chain ID"
      steps := [TxStep.getChainID] }
  | Except.ok _ =>
    match env.newTransactor with
    | Except.error _ =>
      { tx := none, err := some "failed to create transactor"
        steps := [TxStep.getChainID] }
    | Except.ok _ =>
      match env.suggestGasPrice with
      | Except.error _ =>
        { tx := none, err := some "failed to get gas price"
          steps := [TxStep.getChainID, TxStep.suggestGasPrice] }
      | Except.ok _ =>
        match env.transactResult with
        | Except.error _ =>
          { tx := none, err := some "failed to execute transaction"
            steps := [TxStep.getChainID, TxStep.suggestGasPrice,
                      TxStep.transact bs.contractAddress method params] }
        | Except.ok tx =>
          { tx := some tx, err := none
            steps := [TxStep.getChainID, TxStep.suggestGasPrice,
                      TxStep.transact bs.contractAddress method params] }

/-- `BlockchainService.executeTokenTransaction`: same preamble, then
checks the method exists in the token ABI, submits against the TOKEN
contract address, waits for the transaction to be mined with
`bind.WaitMined` (returning the transaction together with the error if
waiting fails), and finally returns `(tx, "transaction failed")` when
the receipt status is 0 and `(tx, nil)` otherwise. -/
def executeTokenTransaction (bs : BlockchainService) (env : ChainEnv)
    (method : String) (params : List Val) : TxOutcome :=
  match env.networkID with
  | Except.error _ =>
    { tx := none, err := some "failed to get chain ID"
      steps := [TxStep.getChainID] }
  | Except.ok _ =>
    match env.newTransactor with
    | Except.error _ =>
      { tx := none, err := some "failed to create transactor"
        steps := [TxStep.getChainID] }
    | Except.ok _ =>
      match env.suggestGasPrice with
      | Except.error _ =>
        { tx := none, err := some "failed to get gas price"
          steps := [TxStep.getChainID, TxStep.suggestGasPrice] }
      | Except.ok _ =>
        if method ∉ tokenABIMethods then
          { tx := none, err := some "method not found in ABI"
            steps := [TxStep.getChainID, TxStep.suggestGasPrice] }
        else
          match env.transactResult with
          | Except.error _ =>
            { tx := none, err := some "failed to execute transaction"
              steps := [TxStep.getChainID, TxStep.suggestGasPrice,
                        TxStep.transact bs.tokenAddress method params] }
          | Except.ok tx =>
            match env.waitMinedResult with
            | Except.error e =>
              { tx := some tx, err := some e
                steps := [TxStep.getChainID, TxStep.suggestGasPrice,
                          TxStep.transact bs.tokenAddress method params,
                          TxStep.waitMined] }
            | Except.ok receipt =>
              if receipt.status = 0 then
                { tx := some tx, err := some "transaction failed"
                  steps := [TxStep.getChainID, TxStep.suggestGasPrice,
                            TxStep.transact bs.tokenAddress method params,
                            TxStep.waitMined] }
              else
                { tx := some tx, err := none
                  steps := [TxStep.getChainID, TxStep.suggestGasPrice,
                            TxStep.transact bs.tokenAddress method params,
                            TxStep.waitMined] }

/-- `BlockchainService.AddToWhitelist`: requires the signing key; a
one-element list goes to `updateWhitelist(addr, true)`, any other
length goes to `updateWhitelistBatch(addrs, true)` with the hex
conversion mapped over the list in order. -/
def AddToWhitelist (bs : BlockchainService) (env : ChainEnv)
    (addresses : List (List Nat)) : TxOutcome :=
  match bs.privateKey with
  | none => { tx := none, err := some "private key not set", steps := [] }
  | some _ =>
    match addresses with
    | [a] =>
      executeTokenTransaction bs env "updateWhitelist"
        [Val.addr (hexToAddress a), Val.boolean true]
    | _ =>
      executeTokenTransaction bs env "updateWhitelistBatch"
        [Val.addrList (addresses.map hexToAddress), Val.boolean true]

/-- `BlockchainService.RemoveFromWhitelist`: identical dispatch with
status `false`. -/
def RemoveFromWhitelist (bs : BlockchainService) (env : ChainEnv)
    (addresses : List (List Nat)) : TxOutcome :=
  match bs.privateKey with
  | none => { tx := none, err := some "private key not set", steps := [] }
  | some _ =>
    match addresses with
    | [a] =>
      executeTokenTransaction bs env "updateWhitelist"
        [Val.addr (hexToAddress a), Val.boolean false]
    | _ =>
      executeTokenTransaction bs env "updateWhitelistBatch"
        [Val.addrList (addresses.map hexToAddress), Val.boolean false]

/-- `BlockchainService.PauseSale`: requires the signing key, then runs
`executeTransaction(ctx, "pause")` on the sale contract. -/
def PauseSale (bs : BlockchainService) (env : ChainEnv) : TxOutcome :=
  match bs.privateKey with
  | none => { tx := none, err := some "private key not set", steps := [] }
  | some _ => executeTransaction bs env "pause" []

/-- `BlockchainService.UnpauseSale`: requires the signing key, then
runs `executeTransaction(ctx, "unpause")` on the sale contract. -/
def UnpauseSale (bs : BlockchainService) (env : ChainEnv) : TxOutcome :=
  match bs.privateKey with
  | none => { tx := none, err := some "private key not set", steps := [] }
  | some _ => executeTransaction bs env "unpause" []

/-- `BlockchainService.IsWhitelisted`: fails fast when the token
address is unset, otherwise returns the result of the single
`whitelist(address)` read. -/
def IsWhitelisted (bs : BlockchainService)
    (whitelistRead : Except String Bool) : Except String Bool :=
  if bs.tokenAddress = 0 then
    Except.error "token address not set"
  else
    match whitelistRead with
    | Except.error _ => Except.error "failed to check whitelist status"
    | Except.ok b => Except.ok b

/-- The decoded results of the two constituent contract reads that
`GetUserPurchases` performs, each fallible. `purchaseInfo` carries the
(amount, ethSpent, timestamp, claimed) tuple of `getPurchaseInfo`. -/
structure UserPurchaseReads where
  purchaseInfo : Except String (Nat × Nat × Nat × Bool)
  totalPurchased : Except String Nat

/-- The `UserPurchaseInfo` struct assembled by `GetUserPurchases`. -/
structure UserPurchaseInfo where
  address : List Nat
  amount : Nat
  ethSpent : Nat
  timestamp : Nat
  claimed : Bool
  totalPurchased : Nat
deriving Repr, DecidableEq

/-- `BlockchainService.GetUserPurchases`: fails fast when the sale
contract address is unset, then performs the two reads in order with
the same all-or-nothing policy as `GetSaleInfo`. -/
def GetUserPurchases (bs : BlockchainService) (userAddress : List Nat)
    (reads : UserPurchaseReads) : Except String UserPurchaseInfo :=
  if bs.contractAddress = 0 then
    Except.error "contract address not set"
  else
    match reads.purchaseInfo with
    | Except.error _ => Except.error "failed to get purchase info"
    | Except.ok info =>
      match reads.totalPurchased with
      | Except.error _ => Except.error "failed to get total purchased"
      | Except.ok totalPurchased =>
        Except.ok
          { address := userAddress
            amount := info.1
            ethSpent := info.2.1
            timestamp := info.2.2.1
            claimed := info.2.2.2
            totalPurchased := totalPurchased }

/-- `BlockchainService.GetTokenBalance`: fails fast when the token
address is unset, otherwise returns the result of the single
`balanceOf(address)` read. -/
def GetTokenBalance (bs : BlockchainService)
    (balanceRead : Except String Nat) : Except String Nat :=
  if bs.tokenAddress = 0 then
    Except.error "token address not set"
  else
    match balanceRead with
    | Except.error _ => Except.error "failed to get token balance"
    | Except.ok b => Except.ok b

/-- A chain environment in which every RPC primitive succeeds and the
mined receipt has success status. Used to instantiate theorems at
concrete inputs. -/
def envOk : ChainEnv :=
  { networkID := Except.ok 31337
    newTransactor := Except.ok ()
    suggestGasPrice := Except.ok 2
    transactResult := Except.ok { hash := 99 }
    waitMinedResult := Except.ok { status := 1, blockNumber := 5 } }

/-- Like `envOk` but the mined receipt reports failure status 0 (the
transaction reverted on chain). -/
def envReverted : ChainEnv :=
  { envOk with waitMinedResult := Except.ok { status := 0, blockNumber := 5 } }

/-- A fully configured service: both contract addresses set and a
signing key present. -/
def bsConfigured : BlockchainService :=
  { contractAddress := 3, tokenAddress := 5, privateKey := some 42 }

/-- A service with a signing key but with BOTH contract addresses left
at the Go zero value. -/
def bsUnsetAddresses : BlockchainService :=
  { contractAddress := 0, tokenAddress := 0, privateKey := some 42 }

/-- The bytes of the hex string "0x01". -/
def addrBytes01 : List Nat := [48, 120, 48, 49]

/-- The bytes of the hex string "0x02". -/
def addrBytes02 : List Nat := [48, 120, 48, 50]

/-- A service with both addresses set but no signing key (read-only
mode). -/
def bsReadOnly : BlockchainService :=
  { contractAddress := 3, tokenAddress := 5, privateKey := none }

/-- A `types.Log` as consumed by `parsePurchaseEvent`: the topic list
(each topic a 32-byte hash, kept as a byte list), the data bytes, the
transaction hash and the block number. -/
structure Log where
  topics : List (List Nat)
  data : List Nat
  txHash : Nat
  blockNumber : Nat
deriving Repr, DecidableEq

/-- The `PurchaseEvent` struct. -/
structure PurchaseEvent where
  buyer : Nat
  tokenAmount : Nat
  ethAmount : Nat
  timestamp : Nat
  txHash : Nat
  blockNumber : Nat
deriving Repr, DecidableEq

/-- `BlockchainService.parsePurchaseEvent`: the Go code performs NO
length validation. It reads `vLog.Topics[1]` (a Go index expression:
panics when fewer than two topics are present) and the slices
`vLog.Data[0:32]`, `[32:64]`, `[64:96]` (panic when `len(Data) < 96`;
the three bound checks are collapsed into one here since each simply
panics at the first violated bound). When it does not panic it always
returns the event paired with a nil error: there is no failing return
path at all. -/
def parsePurchaseEvent (vLog : Log) : GoResult (PurchaseEvent × Option String) :=
  if vLog.topics.length < 2 then
    GoResult.panic "index out of range"
  else if vLog.data.length < 96 then
    GoResult.panic "slice bounds out of range"
  else
    GoResult.ok
      ({ buyer := bytesToAddress (vLog.topics.getD 1 [])
         tokenAmount := bytesToNat (vLog.data.take 32)
         ethAmount := bytesToNat ((vLog.data.drop 32).take 32)
         timestamp := bytesToNat ((vLog.data.drop 64).take 32)
         txHash := vLog.txHash
         blockNumber := vLog.blockNumber }, none)

/-- One item delivered to the forwarding goroutine of
`WatchPurchaseEvents` through its select: an error from `sub.Err()`,
a log from the `logs` channel, or context cancellation. -/
inductive SubItem where
  | subError (msg : String)
  | logEntry (l : Log)
  | ctxDone
deriving Repr, DecidableEq

/-- An observable action of the forwarding goroutine. `closeChannel`
and `resubscribe` are possible actions of such a loop in principle;
the embedded code never performs either (there is no
`close(eventChan)` and no re-subscription anywhere in the function). -/
inductive WatchStep where
  | logWatchError (msg : String)
  | emit (e : PurchaseEvent)
  | unsubscribe
  | closeChannel
  | resubscribe
deriving Repr, DecidableEq

/-- How the forwarding goroutine left the modelled item sequence. -/
inductive LoopExit where
  | blocked
  | returned
  | panicked (msg : String)
deriving Repr, DecidableEq

/-- The body of the goroutine started by `WatchPurchaseEvents`,
run over the sequence of items its select receives. On `sub.Err()` it
logs and returns (the deferred `sub.Unsubscribe()` firing); on a log
it decodes with `parsePurchaseEvent`; the `if err != nil`
log-and-continue branch mirrors the source but is unreachable, since
the decoder returns a nil error whenever it does not panic; a panic
aborts the goroutine (the deferred unsubscribe still firing). An
exhausted item list leaves the goroutine blocked in its select. The
consumer send `eventChan <- *event` is modelled as always ready, with
cancellation during the send covered by the `ctxDone` item. -/
def watchLoop : List SubItem → List WatchStep × LoopExit
  | [] => ([], LoopExit.blocked)
  | SubItem.subError m :: _ =>
    ([WatchStep.logWatchError ("Subscription error: " ++ m),
      WatchStep.unsubscribe], LoopExit.returned)
  | SubItem.ctxDone :: _ => ([WatchStep.unsubscribe], LoopExit.returned)
  | SubItem.logEntry l :: rest =>
    match parsePurchaseEvent l with
    | GoResult.panic m => ([WatchStep.unsubscribe], LoopExit.panicked m)
    | GoResult.ok (_, some e) =>
      let t := watchLoop rest
      (WatchStep.logWatchError ("Failed to parse purchase event: " ++ e)
        :: t.1, t.2)
    | GoResult.ok (event, none) =>
      let t := watchLoop rest
      (WatchStep.emit event :: t.1, t.2)

/-- `BlockchainService.WatchPurchaseEvents`: fails fast when the sale
contract address is unset, fails when the subscription cannot be
established, and otherwise runs the forwarding goroutine over the
delivered items. -/
def WatchPurchaseEvents (bs : BlockchainService)
    (subscribeResult : Except String Unit) (delivered : List SubItem) :
    Except String (List WatchStep × LoopExit) :=
  if bs.contractAddress = 0 then
    Except.error "contract address not set"
  else
    match subscribeResult with
    | Except.error _ => Except.error "failed to subscribe to logs"
    | Except.ok _ => Except.ok (watchLoop delivered)

/-- The events actually delivered to the consumer channel, in order. -/
def emittedEvents (steps : List WatchStep) : List PurchaseEvent :=
  steps.foldr
    (fun s acc =>
      match s with
      | WatchStep.emit e => e :: acc
      | _ => acc) []

/-- A 32-byte topic with value 0 (the event-signature topic). -/
def topicSig : List Nat := List.replicate 32 0

/-- A 32-byte indexed-buyer topic with value 7. -/
def topicBuyer : List Nat := List.replicate 31 0 ++ [7]

/-- A malformed log: both topics present but an empty data payload
(shorter than the 96 bytes the decoder slices). -/
def malformedLog : Log :=
  { topics := [topicSig, topicBuyer], data := [], txHash := 1,
    blockNumber := 1 }

/-- A well-formed log: two topics and exactly 96 data bytes encoding
tokenAmount 5, ethAmount 2, timestamp 9. -/
def wellFormedLog : Log :=
  { topics := [topicSig, topicBuyer]
    data := (List.replicate 31 0 ++ [5]) ++ (List.replicate 31 0 ++ [2])
      ++ (List.replicate 31 0 ++ [9])
    txHash := 2
    blockNumber := 3 }

/-- The address-format validation performed by the HTTP handlers
`GetWhitelistStatus`, `AddToWhitelist` and `RemoveFromWhitelist` in
handlers.go: the request is rejected with "Invalid Ethereum address
format" unless the address has byte length exactly 42 and its first
two bytes are `0x`. Go's short-circuiting `||` means the prefix bytes
are only read when the length already is 42, so the check never
indexes out of range. -/
def handlerAddressAccepted (s : List Nat) : Bool :=
  s.length == 42 && s.take 2 == [48, 120]

/-- Modelled from the spec for comparison (refinement target): an
address is canonical when it is exactly a `0x` prefix followed by 40
hexadecimal characters. -/
def specCanonicalAddress (s : List Nat) : Bool :=
  s.length == 42 && s.take 2 == [48, 120] &&
    (s.drop 2).all (fun b => (hexVal b).isSome)

/-- The bytes of `0x` followed by forty `z` characters: length 42,
correct prefix, but not hexadecimal. -/
def nonHexAddress : List Nat := 48 :: 120 :: List.replicate 40 122

/-- The bytes of `0x` followed by forty `a` characters: canonical. -/
def allHexAddress : List Nat := 48 :: 120 :: List.replicate 40 97

/-- C1: if any one of the four constituent reads fails, `GetSaleInfo`
returns an error: no `SaleInfo` value (partially populated or
otherwise) is ever produced. -/
theorem getSaleInfo_all_or_nothing (bs : BlockchainService)
    (reads : SaleReads)
    (h : exceptIsOk reads.saleConfig = false ∨
         exceptIsOk reads.totalSold = false ∨
         exceptIsOk reads.totalEthRaised = false ∨
         exceptIsOk reads.isSaleActive = false) :
    exceptIsOk (GetSaleInfo bs reads) = false := by
  unfold GetSaleInfo
  by_cases hc : bs.contractAddress = 0
  · simp [hc, exceptIsOk]
  · simp only [hc, if_false]
    rcases hr1 : reads.saleConfig with e1 | v1 <;>
      rcases hr2 : reads.totalSold with e2 | v2 <;>
        rcases hr3 : reads.totalEthRaised with e3 | v3 <;>
          rcases hr4 : reads.isSaleActive with e4 | v4 <;>
            simp_all [exceptIsOk]

/-- Witness for C1 at a concrete input: sale address set, three reads
succeeding and the total-sold read failing. -/
theorem getSaleInfo_all_or_nothing_witness :
    exceptIsOk (GetSaleInfo
      { contractAddress := 7, tokenAddress := 9, privateKey := none }
      { saleConfig := Except.ok (1, 2, 3, 4, 5, 6, true)
        totalSold := Except.error "boom"
        totalEthRaised := Except.ok 11
        isSaleActive := Except.ok true }) = false :=
  getSaleInfo_all_or_nothing _ _ (Or.inr (Or.inl rfl))

/-- C6: with no signing key configured, all four state-changing
operations fail immediately with the private-key error, and their
chain-step trace is empty: no transaction is ever submitted. -/
theorem no_signing_key_fails_fast (bs : BlockchainService)
    (env : ChainEnv) (addresses : List (List Nat))
    (h : bs.privateKey = none) :
    AddToWhitelist bs env addresses =
      { tx := none, err := some "private key not set", steps := [] } ∧
    RemoveFromWhitelist bs env addresses =
      { tx := none, err := some "private key not set", steps := [] } ∧
    PauseSale bs env =
      { tx := none, err := some "private key not set", steps := [] } ∧
    UnpauseSale bs env =
      { tx := none, err := some "private key not set", steps := [] } := by
  unfold AddToWhitelist RemoveFromWhitelist PauseSale UnpauseSale
  rw [h]
  exact ⟨rfl, rfl, rfl, rfl⟩

/-- Witness for C6 at a concrete read-only service. -/
theorem no_signing_key_fails_fast_witness :
    AddToWhitelist bsReadOnly envOk [addrBytes01] =
      { tx := none, err := some "private key not set", steps := [] } :=
  (no_signing_key_fails_fast bsReadOnly envOk [addrBytes01] rfl).1

/-- C3: with a signing key present, a one-element list dispatches to
the single-address token method `updateWhitelist`, and a list of two
or more elements dispatches to `updateWhitelistBatch` with the whole
list converted elementwise in the caller-supplied order (no
deduplication, no sorting: `List.map` preserves order and
multiplicity). Symmetric for removal, with status `false`. -/
theorem whitelist_dispatch_single_vs_batch (bs : BlockchainService)
    (env : ChainEnv) (a : List Nat) (addresses : List (List Nat))
    (k : Nat) (hk : bs.privateKey = some k)
    (hlen : 2 ≤ addresses.length) :
    AddToWhitelist bs env [a] =
      executeTokenTransaction bs env "updateWhitelist"
        [Val.addr (hexToAddress a), Val.boolean true] ∧
    AddToWhitelist bs env addresses =
      executeTokenTransaction bs env "updateWhitelistBatch"
        [Val.addrList (addresses.map hexToAddress), Val.boolean true] ∧
    RemoveFromWhitelist bs env [a] =
      executeTokenTransaction bs env "updateWhitelist"
        [Val.addr (hexToAddress a), Val.boolean false] ∧
    RemoveFromWhitelist bs env addresses =
      executeTokenTransaction bs env "updateWhitelistBatch"
        [Val.addrList (addresses.map hexToAddress), Val.boolean false] := by
  obtain ⟨x, xs, rfl⟩ : ∃ x xs, addresses = x :: xs := by
    cases addresses with
    | nil => simp at hlen
    | cons x xs => exact ⟨x, xs, rfl⟩
  obtain ⟨y, ys, rfl⟩ : ∃ y ys, xs = y :: ys := by
    cases xs with
    | nil => simp at hlen
    | cons y ys => exact ⟨y, ys, rfl⟩
  unfold AddToWhitelist RemoveFromWhitelist
  rw [hk]
  exact ⟨rfl, rfl, rfl, rfl⟩

/-- Witness for C3 at concrete inputs: one address, and a two-address
list. -/
theorem whitelist_dispatch_single_vs_batch_witness :
    AddToWhitelist bsConfigured envOk [addrBytes01] =
      executeTokenTransaction bsConfigured envOk "updateWhitelist"
        [Val.addr (hexToAddress addrBytes01), Val.boolean true] ∧
    AddToWhitelist bsConfigured envOk [addrBytes01, addrBytes02] =
      executeTokenTransaction bsConfigured envOk "updateWhitelistBatch"
        [Val.addrList ([addrBytes01, addrBytes02].map hexToAddress),
         Val.boolean true] :=
  ⟨(whitelist_dispatch_single_vs_batch bsConfigured envOk addrBytes01
      [addrBytes01, addrBytes02] 42 rfl (by decide)).1,
   (whitelist_dispatch_single_vs_batch bsConfigured envOk addrBytes01
      [addrBytes01, addrBytes02] 42 rfl (by decide)).2.1⟩

/-- C9: an empty address list is not rejected: both operations
dispatch to `updateWhitelistBatch` with the empty address array, and,
when the preamble RPCs succeed, a transaction carrying zero addresses
is actually submitted (a `transact` step against the token contract
appears in the trace). -/
theorem empty_list_dispatches_batch (bs : BlockchainService)
    (env : ChainEnv) (k n g : Nat) (tx : Tx)
    (hk : bs.privateKey = some k)
    (hn : env.networkID = Except.ok n)
    (ht : env.newTransactor = Except.ok ())
    (hg : env.suggestGasPrice = Except.ok g)
    (htx : env.transactResult = Except.ok tx) :
    AddToWhitelist bs env [] =
      executeTokenTransaction bs env "updateWhitelistBatch"
        [Val.addrList [], Val.boolean true] ∧
    RemoveFromWhitelist bs env [] =
      executeTokenTransaction bs env "updateWhitelistBatch"
        [Val.addrList [], Val.boolean false] ∧
    TxStep.transact bs.tokenAddress "updateWhitelistBatch"
        [Val.addrList [], Val.boolean true] ∈
      (AddToWhitelist bs env []).steps ∧
    TxStep.transact bs.tokenAddress "updateWhitelistBatch"
        [Val.addrList [], Val.boolean false] ∈
      (RemoveFromWhitelist bs env []).steps := by
  unfold AddToWhitelist RemoveFromWhitelist
  rw [hk]
  refine ⟨rfl, rfl, ?_, ?_⟩ <;>
    · unfold executeTokenTransaction
      rw [hn, ht, hg, htx]
      have habi : ¬ ("updateWhitelistBatch" ∉ tokenABIMethods) := by decide
      simp only [habi, if_false]
      rcases env.waitMinedResult with e | r
      · simp
      · by_cases hs : r.status = 0 <;> simp [hs]

/-- Witness for C9 with a fully cooperative environment. -/
theorem empty_list_dispatches_batch_witness :
    AddToWhitelist bsConfigured envOk [] =
      executeTokenTransaction bsConfigured envOk "updateWhitelistBatch"
        [Val.addrList [], Val.boolean true] ∧
    TxStep.transact bsConfigured.tokenAddress "updateWhitelistBatch"
        [Val.addrList [], Val.boolean true] ∈
      (AddToWhitelist bsConfigured envOk []).steps :=
  ⟨(empty_list_dispatches_batch bsConfigured envOk 42 31337 2
      { hash := 99 } rfl rfl rfl rfl rfl).1,
   (empty_list_dispatches_batch bsConfigured envOk 42 31337 2
      { hash := 99 } rfl rfl rfl rfl rfl).2.2.1⟩

/-- C4 counterexample: with every RPC succeeding and a receipt whose
status is 0 available, `PauseSale` still reports success (`err = none`)
and performs no `waitMined` step at all: the sale-contract path
(`executeTransaction`, used by pauseSale/unpauseSale) never waits for
inclusion and never inspects a receipt, so a reverted pause is treated
as success, contradicting the claim for those two operations. -/
theorem pauseSale_never_inspects_receipt :
    (PauseSale bsConfigured envReverted).err = none ∧
    (PauseSale bsConfigured envReverted).tx = some { hash := 99 } ∧
    TxStep.waitMined ∉ (PauseSale bsConfigured envReverted).steps := by
  decide

/-- C4 amended: the token-contract operations (addToWhitelist and
removeFromWhitelist, for every input list) resolve the chain id, set
the suggested gas price, submit, wait for inclusion, and surface a
failure-status receipt as the explicit "transaction failed" error
together with the transaction; pauseSale and unpauseSale stop after
submission: their trace never contains a `waitMined` step, under any
environment. -/
theorem receipt_failure_surfaced_on_token_path_only
    (bs : BlockchainService) (env : ChainEnv)
    (addresses : List (List Nat)) (k n g : Nat) (tx : Tx) (r : Receipt)
    (hk : bs.privateKey = some k)
    (hn : env.networkID = Except.ok n)
    (ht : env.newTransactor = Except.ok ())
    (hg : env.suggestGasPrice = Except.ok g)
    (htx : env.transactResult = Except.ok tx)
    (hw : env.waitMinedResult = Except.ok r)
    (hr : r.status = 0) :
    ((AddToWhitelist bs env addresses).tx = some tx ∧
     (AddToWhitelist bs env addresses).err = some "transaction failed" ∧
     [TxStep.getChainID, TxStep.suggestGasPrice] ⊆
       (AddToWhitelist bs env addresses).steps ∧
     TxStep.waitMined ∈ (AddToWhitelist bs env addresses).steps) ∧
    ((RemoveFromWhitelist bs env addresses).tx = some tx ∧
     (RemoveFromWhitelist bs env addresses).err = some "transaction failed" ∧
     TxStep.waitMined ∈ (RemoveFromWhitelist bs env addresses).steps) ∧
    TxStep.waitMined ∉ (PauseSale bs env).steps ∧
    TxStep.waitMined ∉ (UnpauseSale bs env).steps := by
  have hpause : ∀ m : String, TxStep.waitMined ∉
      (executeTransaction bs env m []).steps := by
    intro m
    unfold executeTransaction
    rcases env.networkID with e | cid
    · simp
    · rcases env.newTransactor with e | u
      · simp
      · rcases env.suggestGasPrice with e | gp
        · simp
        · rcases env.transactResult with e | tx0 <;> simp
  have htok : ∀ (m : String) (params : List Val), m ∈ tokenABIMethods →
      (executeTokenTransaction bs env m params).tx = some tx ∧
      (executeTokenTransaction bs env m params).err =
        some "transaction failed" ∧
      [TxStep.getChainID, TxStep.suggestGasPrice] ⊆
        (executeTokenTransaction bs env m params).steps ∧
      TxStep.waitMined ∈ (executeTokenTransaction bs env m params).steps := by
    intro m params hm
    unfold executeTokenTransaction
    have hm2 : ¬ (m ∉ tokenABIMethods) := by simpa using hm
    simp only [hn, ht, hg, htx, hw]
    rw [if_neg hm2, if_pos hr]
    refine ⟨rfl, rfl, ?_, by simp⟩
    intro s hs
    simp only [List.mem_cons, List.not_mem_nil, or_false] at hs
    rcases hs with h1 | h1 <;> simp [h1]
  constructor
  · unfold AddToWhitelist
    rw [hk]
    match addresses with
    | [] => exact htok _ _ (by decide)
    | [a] => exact htok _ _ (by decide)
    | a :: b :: rest => exact htok _ _ (by decide)
  refine ⟨?_, ?_, ?_⟩
  · unfold RemoveFromWhitelist
    rw [hk]
    match addresses with
    | [] => exact (htok _ _ (by decide)).imp id (fun h => h.imp id (fun h => h.2))
    | [a] => exact (htok _ _ (by decide)).imp id (fun h => h.imp id (fun h => h.2))
    | a :: b :: rest =>
      exact (htok _ _ (by decide)).imp id (fun h => h.imp id (fun h => h.2))
  · unfold PauseSale
    rw [hk]
    exact hpause "pause"
  · unfold UnpauseSale
    rw [hk]
    exact hpause "unpause"

/-- Witness for the amended C4 at concrete inputs: one address, a
cooperating environment, and a status-0 receipt. -/
theorem receipt_failure_surfaced_on_token_path_only_witness :
    (AddToWhitelist bsConfigured envReverted [addrBytes01]).err =
      some "transaction failed" ∧
    (AddToWhitelist bsConfigured envReverted [addrBytes01]).tx =
      some { hash := 99 } ∧
    TxStep.waitMined ∉ (PauseSale bsConfigured envReverted).steps := by
  have h := receipt_failure_surfaced_on_token_path_only bsConfigured
    envReverted [addrBytes01] 42 31337 2 { hash := 99 }
    { status := 0, blockNumber := 5 } rfl rfl rfl rfl rfl rfl rfl
  exact ⟨h.1.2.1, h.1.1, h.2.2.1⟩

/-- C5 counterexample: with the token contract address unset (zero)
but a signing key present and a cooperative chain, `AddToWhitelist`
performs no configuration check at all: it submits a transaction
whose `transact` step targets address 0, and even reports success,
contradicting the fail-fast-with-ContractNotConfigured claim for the
whitelist write operations. -/
theorem addToWhitelist_zero_address_attempted :
    (AddToWhitelist bsUnsetAddresses envOk [addrBytes01]).err = none ∧
    TxStep.transact 0 "updateWhitelist"
        [Val.addr (hexToAddress addrBytes01), Val.boolean true] ∈
      (AddToWhitelist bsUnsetAddresses envOk [addrBytes01]).steps := by
  decide

/-- C5 amended: every read operation does fail fast when its contract
address is unset (`GetSaleInfo`, `GetUserPurchases` and
`WatchPurchaseEvents` on the sale address, `IsWhitelisted` and
`GetTokenBalance` on the token address, each returning the
configuration error before any chain interaction), but none of the
four state-changing operations performs such a check: with a signing
key and a cooperative environment, addToWhitelist and
removeFromWhitelist transact against token address 0, and pauseSale
and unpauseSale transact against sale address 0. -/
theorem contract_unset_reads_fail_writes_proceed
    (bsr bs : BlockchainService) (env : ChainEnv) (reads : SaleReads)
    (ureads : UserPurchaseReads) (userAddress : List Nat)
    (wread : Except String Bool) (bread : Except String Nat)
    (subscribeResult : Except String Unit) (delivered : List SubItem)
    (a : List Nat) (k n g : Nat) (tx : Tx)
    (hrc : bsr.contractAddress = 0) (hrt : bsr.tokenAddress = 0)
    (hc : bs.contractAddress = 0) (htok : bs.tokenAddress = 0)
    (hk : bs.privateKey = some k)
    (hn : env.networkID = Except.ok n)
    (ht : env.newTransactor = Except.ok ())
    (hg : env.suggestGasPrice = Except.ok g)
    (htx : env.transactResult = Except.ok tx) :
    GetSaleInfo bsr reads = Except.error "contract address not set" ∧
    GetUserPurchases bsr userAddress ureads =
      Except.error "contract address not set" ∧
    IsWhitelisted bsr wread = Except.error "token address not set" ∧
    GetTokenBalance bsr bread = Except.error "token address not set" ∧
    WatchPurchaseEvents bsr subscribeResult delivered =
      Except.error "contract address not set" ∧
    TxStep.transact 0 "updateWhitelist"
        [Val.addr (hexToAddress a), Val.boolean true] ∈
      (AddToWhitelist bs env [a]).steps ∧
    TxStep.transact 0 "updateWhitelist"
        [Val.addr (hexToAddress a), Val.boolean false] ∈
      (RemoveFromWhitelist bs env [a]).steps ∧
    TxStep.transact 0 "pause" [] ∈ (PauseSale bs env).steps ∧
    TxStep.transact 0 "unpause" [] ∈ (UnpauseSale bs env).steps := by
  have htokmem : ∀ (m : String) (params : List Val),
      ¬ (m ∉ tokenABIMethods) →
      TxStep.transact 0 m params ∈
        (executeTokenTransaction bs env m params).steps := by
    intro m params hm
    unfold executeTokenTransaction
    rw [hn, ht, hg, htx]
    simp only [hm, if_false]
    rcases env.waitMinedResult with e | r
    · simp [htok]
    · by_cases hs : r.status = 0 <;> simp [hs, htok]
  have hsalemem : ∀ m : String,
      TxStep.transact 0 m [] ∈ (executeTransaction bs env m []).steps := by
    intro m
    unfold executeTransaction
    rw [hn, ht, hg, htx]
    simp [hc]
  refine ⟨?_, ?_, ?_, ?_, ?_, ?_, ?_, ?_, ?_⟩
  · unfold GetSaleInfo
    simp [hrc]
  · unfold GetUserPurchases
    simp [hrc]
  · unfold IsWhitelisted
    simp [hrt]
  · unfold GetTokenBalance
    simp [hrt]
  · unfold WatchPurchaseEvents
    simp [hrc]
  · unfold AddToWhitelist
    rw [hk]
    exact htokmem "updateWhitelist" _ (by decide)
  · unfold RemoveFromWhitelist
    rw [hk]
    exact htokmem "updateWhitelist" _ (by decide)
  · unfold PauseSale
    rw [hk]
    exact hsalemem "pause"
  · unfold UnpauseSale
    rw [hk]
    exact hsalemem "unpause"

/-- Witness for the amended C5 at concrete inputs: the five reads all
fail with the configuration error, and all four writes reach a
`transact` step targeting address 0. -/
theorem contract_unset_reads_fail_writes_proceed_witness :
    GetSaleInfo bsUnsetAddresses
      { saleConfig := Except.ok (1, 2, 3, 4, 5, 6, true)
        totalSold := Except.ok 0
        totalEthRaised := Except.ok 0
        isSaleActive := Except.ok true } =
      Except.error "contract address not set" ∧
    GetUserPurchases bsUnsetAddresses addrBytes01
      { purchaseInfo := Except.ok (1, 2, 3, false)
        totalPurchased := Except.ok 4 } =
      Except.error "contract address not set" ∧
    IsWhitelisted bsUnsetAddresses (Except.ok true) =
      Except.error "token address not set" ∧
    GetTokenBalance bsUnsetAddresses (Except.ok 10) =
      Except.error "token address not set" ∧
    WatchPurchaseEvents bsUnsetAddresses (Except.ok ()) [] =
      Except.error "contract address not set" ∧
    TxStep.transact 0 "updateWhitelist"
        [Val.addr (hexToAddress addrBytes01), Val.boolean false] ∈
      (RemoveFromWhitelist bsUnsetAddresses envOk [addrBytes01]).steps ∧
    TxStep.transact 0 "pause" [] ∈
      (PauseSale bsUnsetAddresses envOk).steps ∧
    TxStep.transact 0 "unpause" [] ∈
      (UnpauseSale bsUnsetAddresses envOk).steps := by
  have h := contract_unset_reads_fail_writes_proceed bsUnsetAddresses
    bsUnsetAddresses envOk
    { saleConfig := Except.ok (1, 2, 3, 4, 5, 6, true)
      totalSold := Except.ok 0
      totalEthRaised := Except.ok 0
      isSaleActive := Except.ok true }
    { purchaseInfo := Except.ok (1, 2, 3, false)
      totalPurchased := Except.ok 4 }
    addrBytes01 (Except.ok true) (Except.ok 10) (Except.ok ()) []
    addrBytes01 42 31337 2 { hash := 99 }
    rfl rfl rfl rfl rfl rfl rfl rfl rfl
  exact ⟨h.1, h.2.1, h.2.2.1, h.2.2.2.1, h.2.2.2.2.1, h.2.2.2.2.2.2.1,
    h.2.2.2.2.2.2.2.1, h.2.2.2.2.2.2.2.2⟩

/-- C2 (code bug): fed a log whose data payload is shorter than the
96 bytes the decoder slices, `parsePurchaseEvent` does not fail with a
MalformedLog error: it panics with an out-of-range slice (reading past
the end of the provided bytes), because the source performs no length
validation whatsoever before slicing. -/
theorem parsePurchaseEvent_no_length_guard :
    parsePurchaseEvent malformedLog =
      GoResult.panic "slice bounds out of range" := by
  decide

/-- C7 (code bug): a subscription fed one malformed entry followed by
one well-formed entry does NOT deliver one decoded event: decoding the
malformed entry panics (see `parsePurchaseEvent_no_length_guard`), the
goroutine aborts, the well-formed entry is never processed, and zero
events reach the consumer. The log-and-continue branch the claim
describes exists in the source but is unreachable, since the decoder
never returns a non-nil error. -/
theorem watchLoop_dies_on_malformed_entry :
    watchLoop [SubItem.logEntry malformedLog,
        SubItem.logEntry wellFormedLog] =
      ([WatchStep.unsubscribe], LoopExit.panicked "slice bounds out of range") ∧
    emittedEvents (watchLoop [SubItem.logEntry malformedLog,
        SubItem.logEntry wellFormedLog]).1 = [] := by
  constructor
  · rfl
  · rfl

/-- C10: when the underlying subscription reports an error, the
forwarding goroutine logs it, unsubscribes and returns, regardless of
anything still queued behind the error (no reconnection: no
`resubscribe` step ever appears); and on EVERY input sequence the
consumer event channel is never closed (no `closeChannel` step), so
termination is invisible to a consumer reading the channel. -/
theorem subscription_error_exits_and_channel_never_closed :
    (∀ (m : String) (rest : List SubItem),
      watchLoop (SubItem.subError m :: rest) =
        ([WatchStep.logWatchError ("Subscription error: " ++ m),
          WatchStep.unsubscribe], LoopExit.returned)) ∧
    (∀ items : List SubItem,
      WatchStep.closeChannel ∉ (watchLoop items).1 ∧
      WatchStep.resubscribe ∉ (watchLoop items).1) := by
  constructor
  · intro m rest
    rfl
  · intro items
    induction items with
    | nil => simp [watchLoop]
    | cons head rest ih =>
      cases head with
      | subError m => simp [watchLoop]
      | ctxDone => simp [watchLoop]
      | logEntry l =>
        rcases hp : parsePurchaseEvent l with ⟨e, err⟩ | m
        · cases err with
          | none => simpa [watchLoop, hp] using ih
          | some msg => simpa [watchLoop, hp] using ih
        · simp [watchLoop, hp]

/-- C8 counterexample: the handlers accept `0x` followed by forty `z`
characters, an address containing non-hex characters, because the
boundary check inspects only the length and the prefix: hex-ness of
the remaining 40 characters is never validated. -/
theorem handler_accepts_non_hex_address :
    handlerAddressAccepted nonHexAddress = true ∧
    specCanonicalAddress nonHexAddress = false := by
  decide

/-- C8 amended: the boundary check accepts every canonical address,
and rejects any input whose byte length is not exactly 42 (hence the
empty string and 39- or 41-hex-digit inputs) and any input lacking
the `0x` prefix; it does not validate that the trailing 40 characters
are hexadecimal. -/
theorem handler_checks_length_and_prefix_only (s : List Nat) :
    (specCanonicalAddress s = true → handlerAddressAccepted s = true) ∧
    (s.length ≠ 42 → handlerAddressAccepted s = false) ∧
    (s.take 2 ≠ [48, 120] → handlerAddressAccepted s = false) := by
  unfold specCanonicalAddress handlerAddressAccepted
  refine ⟨?_, ?_, ?_⟩
  · intro h
    simp only [Bool.and_eq_true] at h
    simp [h.1.1, h.1.2]
  · intro h
    simp [h]
  · intro h
    simp [h]

/-- Witness for the amended C8: a canonical address is accepted; the
empty string and a 42-byte string with no `0x` prefix are rejected. -/
theorem handler_checks_length_and_prefix_only_witness :
    handlerAddressAccepted allHexAddress = true ∧
    handlerAddressAccepted [] = false ∧
    handlerAddressAccepted (List.replicate 42 97) = false :=
  ⟨(handler_checks_length_and_prefix_only allHexAddress).1 (by decide),
   (handler_checks_length_and_prefix_only []).2.1 (by decide),
   (handler_checks_length_and_prefix_only (List.replicate 42 97)).2.2
     (by decide)⟩

end WhitelistBackend
